import Mathlib

/-!
Shallow embedding of `hyperspace/metrics/src/handler.rs` (composable-ibc).

Modelling conventions:
* `std::time::Instant` is a wall-clock reading in milliseconds, modelled as `Nat`;
  every operation that calls `Instant::now()` in the source takes the reading as an
  explicit argument (`now`), and a batch of events is paired with the reading taken
  while processing each event.
* `Arc<Mutex<HashMap<PacketId, Instant>>>` (the `PacketMap` type) is modelled as an
  index (`MapRef`) into an explicit heap of maps (`MapHeap`); cloning an `Arc`
  copies the index, so two handlers that were linked share the same heap cell,
  exactly as two `Arc` clones share the same allocation. The `Mutex` serialises
  individual map operations; since our semantics is sequential, each lock/unlock
  pair is a single heap read or write.
* prometheus counters and gauges are `Nat`-valued cells, histograms are the list of
  samples observed so far (all samples in the source are integer-valued `f64` casts:
  whole milliseconds, `u64` weights, byte lengths).
* fallible Rust code (`panic` / `expect`) is `Except String`.

The `Metrics` struct itself lives in `data.rs`, which is not part of the sources;
its fields and methods used by `handler.rs` are modelled from the spec where noted.
-/

namespace Hyperspace

/-- A wall-clock instant, in milliseconds. -/
abbrev Instant := Nat

/-- ibc `Height`: revision number and revision height (`event.height()` exposes it;
only `revision_height` is consulted by the handler). -/
structure Height where
  revision_number : Nat
  revision_height : Nat
deriving DecidableEq

/-- ics24 identifiers, kept as strings. -/
abbrev ChannelId := String

abbrev PortId := String

abbrev ClientId := String

/-- ics04 packet sequence number. -/
abbrev Sequence := Nat

/-- ics04 `Packet` (the fields the metrics handler can see; payload bytes and
timeout fields are never consulted so they are omitted). -/
structure Packet where
  sequence : Sequence
  source_port : PortId
  source_channel : ChannelId
  destination_port : PortId
  destination_channel : ChannelId
deriving DecidableEq

/-- `PacketId` from handler.rs: destination-side identity of an in-flight packet. -/
structure PacketId where
  sequence : Sequence
  destination_channel : ChannelId
  destination_port : PortId
deriving DecidableEq

/-- `impl From<Packet> for PacketId`. -/
def PacketId.ofPacket (packet : Packet) : PacketId :=
  ⟨packet.sequence, packet.destination_channel, packet.destination_port⟩

/-- `HashMap<PacketId, Instant>`, as an association list; lookup takes the most
recent binding, so `insert` (which overwrites in a `HashMap`) can shadow. -/
abbrev PacketMap := List (PacketId × Instant)

/-- `HashMap::get`. -/
def PacketMap.get? : PacketMap → PacketId → Option Instant
  | [], _ => none
  | (k, v) :: rest, key => if key = k then some v else PacketMap.get? rest key

/-- `HashMap::insert` (observationally, with respect to `PacketMap.get?`). -/
def PacketMap.insert (m : PacketMap) (key : PacketId) (v : Instant) : PacketMap :=
  (key, v) :: m

/-- The heap of `Arc<Mutex<HashMap>>` allocations; an `Arc` clone is the same
index into this heap. -/
structure MapHeap where
  data : List PacketMap
deriving DecidableEq

/-- An `Arc<Mutex<HashMap<PacketId, Instant>>>` handle (the `PacketMap` alias in
handler.rs): an index into the heap. -/
abbrev MapRef := Nat

/-- Dereference a handle. -/
def MapHeap.get (h : MapHeap) (r : MapRef) : PacketMap := h.data.getD r []

/-- Replace the map a handle points to. -/
def MapHeap.set (h : MapHeap) (r : MapRef) (m : PacketMap) : MapHeap :=
  ⟨h.data.set r m⟩

/-- `map.lock().unwrap().insert(key, now)`. -/
def MapHeap.record (h : MapHeap) (r : MapRef) (key : PacketId) (v : Instant) : MapHeap :=
  h.set r (PacketMap.insert (h.get r) key v)

/-- `map.lock().unwrap().get(&key)`. -/
def MapHeap.lookup (h : MapHeap) (r : MapRef) (key : PacketId) : Option Instant :=
  PacketMap.get? (h.get r) key

/-- The `Metrics` struct of `data.rs`. `data.rs` is not among the sources, so the
shape is modelled from the spec: monotonic counters, derived gauges, histograms
(lists of samples), the watermark gauge, and the counterparty-reported counters
bound by linkage (read here as plain values: handler.rs only ever reads them). -/
structure Metrics where
  latest_processed_height : Nat
  number_of_received_send_packets : Nat
  number_of_received_receive_packets : Nat
  number_of_received_acknowledge_packets : Nat
  number_of_received_timeouts : Nat
  sent_packet_time : List Nat
  sent_acknowledgment_time : List Nat
  sent_timeout_packet_time : List Nat
  sent_update_client_time : List Nat
  number_of_sent_acknowledgments : Nat
  number_of_undelivered_acknowledgements : Nat
  number_of_sent_packets : Nat
  number_of_undelivered_packets : Nat
  number_of_sent_timeout_packets : Nat
  gas_cost_for_sent_tx_bundle : List Nat
  transaction_length_for_sent_tx_bundle : List Nat
  counterparty_number_of_received_acknowledgments : Nat
  counterparty_number_of_received_packets : Nat
  light_client_heights : List (ClientId × Height)
deriving DecidableEq

/-- Modelled from the spec: `Metrics::update_latest_processed_height` (data.rs)
stores the given height in the watermark gauge, which is "externally persisted in
the metrics sink". -/
def Metrics.update_latest_processed_height (m : Metrics) (h : Nat) : Metrics :=
  { m with latest_processed_height := h }

/-- Modelled from the spec: `Metrics::update_light_client_height` (data.rs) is the
"external client-height bookkeeping call" triggered by a client update; it records
the consensus height for the client in the sink. -/
def Metrics.update_light_client_height (m : Metrics) (client_id : ClientId)
    (consensus_height : Height) : Metrics :=
  { m with light_client_heights := (client_id, consensus_height) :: m.light_client_heights }

/-- Modelled from the spec: `Metrics::link_with_counterparty_metrics` (data.rs)
"binds counter cross-references so each side can read the other's externally
reported counts". -/
def Metrics.link_with_counterparty_metrics (a b : Metrics) : Metrics × Metrics :=
  ({ a with
      counterparty_number_of_received_acknowledgments := b.number_of_received_acknowledge_packets
      counterparty_number_of_received_packets := b.number_of_received_receive_packets },
   { b with
      counterparty_number_of_received_acknowledgments := a.number_of_received_acknowledge_packets
      counterparty_number_of_received_packets := a.number_of_received_receive_packets })

/-- The `IbcEvent` variants the handler distinguishes; every other variant is
collapsed into `Other` (the `_ => ()` arm). Each kept variant carries the height
its Rust event struct reports through `fn height()`. -/
inductive IbcEvent where
  | SendPacket (height : Height) (packet : Packet)
  | ReceivePacket (height : Height) (packet : Packet)
  | WriteAcknowledgement (height : Height) (packet : Packet)
  | AcknowledgePacket (height : Height) (packet : Packet)
  | TimeoutPacket (height : Height) (packet : Packet)
  | TimeoutOnClosePacket (height : Height) (packet : Packet)
  | UpdateClient (height : Height) (client_id : ClientId) (consensus_height : Height)
  | Other
deriving DecidableEq

/-- The `matches!` guard of handle_events: the variants on which `fn height()` is
defined and the height gate applies. -/
def IbcEvent.isHeightGated : IbcEvent → Bool
  | .SendPacket .. => true
  | .ReceivePacket .. => true
  | .WriteAcknowledgement .. => true
  | .AcknowledgePacket .. => true
  | .TimeoutPacket .. => true
  | .TimeoutOnClosePacket .. => true
  | .UpdateClient .. => true
  | .Other => false

/-- `event.height()` (only consulted under the `matches!` guard; `Other` returns a
dummy). -/
def IbcEvent.height : IbcEvent → Height
  | .SendPacket h _ => h
  | .ReceivePacket h _ => h
  | .WriteAcknowledgement h _ => h
  | .AcknowledgePacket h _ => h
  | .TimeoutPacket h _ => h
  | .TimeoutOnClosePacket h _ => h
  | .UpdateClient h _ _ => h
  | .Other => ⟨0, 0⟩

/-- `ibc_proto::google::protobuf::Any`: a type-url tag and payload bytes (only the
length of the payload matters to the handler). -/
structure Any where
  type_url : String
  value : List Nat
deriving DecidableEq

/-- `MetricsHandler` from handler.rs. The prometheus `Registry` field only
parameterises gauge registration inside the external sink, so it is dropped;
the three own stores are heap handles, the counterparty stores are optional
handles, unset until `link_with_counterparty`. -/
structure MetricsHandler where
  metrics : Metrics
  last_sent_packet_time : MapRef
  last_sent_acknowledgment_time : MapRef
  last_sent_timeout_packet_time : MapRef
  last_update_client_time : Option Instant
  counterparty_last_sent_packet_time : Option MapRef
  counterparty_last_sent_acknowledgment_time : Option MapRef
  counterparty_last_sent_timeout_packet_time : Option MapRef
deriving DecidableEq

/-- `MetricsHandler::new`: fresh empty stores (three fresh heap cells), no client
update seen, counterparty references unset. -/
def MetricsHandler.new (heap : MapHeap) (metrics : Metrics) :
    MetricsHandler × MapHeap :=
  let n := heap.data.length
  (⟨metrics, n, n + 1, n + 2, none, none, none, none⟩,
   ⟨heap.data ++ [[], [], []]⟩)

/-- The `expect` message raised when a cross-referencing call precedes linkage. -/
def linkExpectMsg : String :=
  "counterparty_*_time is not set. Perhaps you forgot to call link_with_counterparty?"

/-- `MetricsHandler::observe_last_packet_time`: correlate an inbound confirmation
against the counterparty's store. `expect` on an unset counterparty reference is a
panic (`Except.error`); a missed lookup logs a warning and observes nothing; a hit
observes `now - recorded` milliseconds into the histogram. Returns the histogram. -/
def MetricsHandler.observe_last_packet_time (now : Instant) (heap : MapHeap)
    (packet : Packet) (counterparty_map : Option MapRef) (time_metrics : List Nat) :
    Except String (List Nat) :=
  match counterparty_map with
  | none => .error linkExpectMsg
  | some r =>
    match heap.lookup r (PacketId.ofPacket packet) with
    | some last_time => .ok (time_metrics ++ [now - last_time])
    | none => .ok time_metrics

/-- `observe_delta_time` (free function at the bottom of handler.rs): first call
initialises the scalar slot, later calls observe the delta and advance the slot.
Returns the new slot and the histogram. -/
def observe_delta_time (now : Instant) (maybe_time : Option Instant)
    (time_metrics : List Nat) : Option Instant × List Nat :=
  match maybe_time with
  | some last_time => (some now, time_metrics ++ [now - last_time])
  | none => (some now, time_metrics)

/-- The `match event` dispatch of handle_events (one event, after the height
gate). `now` is the `Instant::now()` reading taken while processing this event. -/
def MetricsHandler.handle_event_dispatch (self : MetricsHandler) (heap : MapHeap)
    (now : Instant) : IbcEvent → Except String (MetricsHandler × MapHeap)
  | .SendPacket _ packet =>
    let m := { self.metrics with
      number_of_received_send_packets := self.metrics.number_of_received_send_packets + 1 }
    .ok ({ self with metrics := m },
      heap.record self.last_sent_packet_time (PacketId.ofPacket packet) now)
  | .ReceivePacket _ packet =>
    let m := { self.metrics with
      number_of_received_receive_packets := self.metrics.number_of_received_receive_packets + 1 }
    match MetricsHandler.observe_last_packet_time now heap packet
        self.counterparty_last_sent_packet_time m.sent_packet_time with
    | .error e => .error e
    | .ok hist => .ok ({ self with metrics := { m with sent_packet_time := hist } }, heap)
  | .WriteAcknowledgement _ packet =>
    .ok (self, heap.record self.last_sent_acknowledgment_time (PacketId.ofPacket packet) now)
  | .AcknowledgePacket _ packet =>
    let m := { self.metrics with
      number_of_received_acknowledge_packets :=
        self.metrics.number_of_received_acknowledge_packets + 1 }
    match MetricsHandler.observe_last_packet_time now heap packet
        self.counterparty_last_sent_acknowledgment_time m.sent_acknowledgment_time with
    | .error e => .error e
    | .ok hist =>
      .ok ({ self with metrics := { m with sent_acknowledgment_time := hist } }, heap)
  | .TimeoutPacket _ packet =>
    let m := { self.metrics with
      number_of_received_timeouts := self.metrics.number_of_received_timeouts + 1 }
    match MetricsHandler.observe_last_packet_time now heap packet
        self.counterparty_last_sent_timeout_packet_time m.sent_timeout_packet_time with
    | .error e => .error e
    | .ok hist =>
      .ok ({ self with metrics := { m with sent_timeout_packet_time := hist } }, heap)
  | .TimeoutOnClosePacket _ packet =>
    let m := { self.metrics with
      number_of_received_timeouts := self.metrics.number_of_received_timeouts + 1 }
    match MetricsHandler.observe_last_packet_time now heap packet
        self.counterparty_last_sent_timeout_packet_time m.sent_timeout_packet_time with
    | .error e => .error e
    | .ok hist =>
      .ok ({ self with metrics := { m with sent_timeout_packet_time := hist } }, heap)
  | .UpdateClient _ client_id consensus_height =>
    let pair := observe_delta_time now self.last_update_client_time
      self.metrics.sent_update_client_time
    let m := { self.metrics with sent_update_client_time := pair.2 }
    let m := m.update_light_client_height client_id consensus_height
    .ok ({ self with metrics := m, last_update_client_time := pair.1 }, heap)
  | .Other => .ok (self, heap)

/-- The event loop of handle_events: `latest_processed_height` is the pre-batch
watermark `W0` captured before the loop, `new_latest` the running maximum height
of processed events. Each event is paired with its `Instant::now()` reading. -/
def MetricsHandler.handle_events_go (self : MetricsHandler) (heap : MapHeap)
    (latest_processed_height : Nat) (new_latest : Nat) :
    List (IbcEvent × Instant) → Except String (MetricsHandler × MapHeap × Nat)
  | [] => .ok (self, heap, new_latest)
  | (event, now) :: rest =>
    if event.isHeightGated then
      let current := event.height.revision_height
      if latest_processed_height > current then
        MetricsHandler.handle_events_go self heap latest_processed_height new_latest rest
      else
        let new_latest2 := if new_latest < current then current else new_latest
        match self.handle_event_dispatch heap now event with
        | .error e => .error e
        | .ok (self2, heap2) =>
          MetricsHandler.handle_events_go self2 heap2 latest_processed_height new_latest2 rest
    else
      match self.handle_event_dispatch heap now event with
      | .error e => .error e
      | .ok (self2, heap2) =>
        MetricsHandler.handle_events_go self2 heap2 latest_processed_height new_latest rest

/-- `MetricsHandler::handle_events`: capture the watermark, run the loop, then
advance the watermark once to the maximum processed height. -/
def MetricsHandler.handle_events (self : MetricsHandler) (heap : MapHeap)
    (events : List (IbcEvent × Instant)) : Except String (MetricsHandler × MapHeap) :=
  let latest := self.metrics.latest_processed_height
  match self.handle_events_go heap latest latest events with
  | .error e => .error e
  | .ok (self2, heap2, new_latest) =>
    .ok ({ self2 with metrics := self2.metrics.update_latest_processed_height new_latest },
      heap2)

/-- One message of `MetricsHandler::handle_messages` (acts on the metrics only). -/
def Metrics.handle_message (m : Metrics) (message : Any) : Metrics :=
  if message.type_url = "/ibc.core.channel.v1.MsgAcknowledgement" then
    let m := { m with number_of_sent_acknowledgments := m.number_of_sent_acknowledgments + 1 }
    let number_of_undelivered_acknowledgements :=
      m.number_of_sent_acknowledgments - m.counterparty_number_of_received_acknowledgments
    { m with number_of_undelivered_acknowledgements := number_of_undelivered_acknowledgements }
  else if message.type_url = "/ibc.core.channel.v1.MsgRecvPacket" then
    let m := { m with number_of_undelivered_packets :=
      m.number_of_sent_packets - m.counterparty_number_of_received_packets }
    { m with number_of_sent_packets := m.number_of_sent_packets + 1 }
  else m

/-- `MetricsHandler::handle_messages`: fold over the batch (u64 `saturating_sub`
is truncated subtraction on the Nat-valued counters). -/
def MetricsHandler.handle_messages (self : MetricsHandler) (messages : List Any) :
    MetricsHandler :=
  { self with metrics := messages.foldl Metrics.handle_message self.metrics }

/-- One message of `MetricsHandler::handle_timeouts`. -/
def Metrics.handle_timeout_message (m : Metrics) (message : Any) : Metrics :=
  if message.type_url = "/ibc.core.channel.v1.MsgTimeout" ∨
      message.type_url = "/ibc.core.channel.v1.MsgTimeoutOnClose" then
    { m with number_of_sent_timeout_packets := m.number_of_sent_timeout_packets + 1 }
  else m

/-- `MetricsHandler::handle_timeouts`. -/
def MetricsHandler.handle_timeouts (self : MetricsHandler) (timeouts : List Any) :
    MetricsHandler :=
  { self with metrics := timeouts.foldl Metrics.handle_timeout_message self.metrics }

/-- `MetricsHandler::handle_transaction_costs`: one weight sample and one
batch-size sample. -/
def MetricsHandler.handle_transaction_costs (self : MetricsHandler)
    (batch_weight : Nat) (messages : List Any) : MetricsHandler :=
  let batch_size := (messages.map (fun x => x.value.length)).sum
  { self with metrics := { self.metrics with
      gas_cost_for_sent_tx_bundle := self.metrics.gas_cost_for_sent_tx_bundle ++ [batch_weight]
      transaction_length_for_sent_tx_bundle :=
        self.metrics.transaction_length_for_sent_tx_bundle ++ [batch_size] } }

/-- `MetricsHandler::link_with_counterparty`: link the metrics cross-references
and let each side's counterparty handles alias the other side's own stores
(`Arc::clone` copies the heap index). -/
def MetricsHandler.link_with_counterparty (self counterparty : MetricsHandler) :
    MetricsHandler × MetricsHandler :=
  let pair := Metrics.link_with_counterparty_metrics self.metrics counterparty.metrics
  ({ self with
      metrics := pair.1
      counterparty_last_sent_packet_time := some counterparty.last_sent_packet_time
      counterparty_last_sent_acknowledgment_time :=
        some counterparty.last_sent_acknowledgment_time
      counterparty_last_sent_timeout_packet_time :=
        some counterparty.last_sent_timeout_packet_time },
   { counterparty with
      metrics := pair.2
      counterparty_last_sent_packet_time := some self.last_sent_packet_time
      counterparty_last_sent_acknowledgment_time := some self.last_sent_acknowledgment_time
      counterparty_last_sent_timeout_packet_time := some self.last_sent_timeout_packet_time })

/-! ### Helper lemmas and sample values -/

/-- Recording under a valid handle and looking the same key up through any alias
of that handle yields the recorded instant. -/
theorem MapHeap.lookup_record_self (heap : MapHeap) (r : MapRef) (key : PacketId)
    (v : Instant) (hr : r < heap.data.length) :
    (heap.record r key v).lookup r key = some v := by
  unfold MapHeap.record MapHeap.lookup MapHeap.set MapHeap.get
  rw [List.getD_eq_getElem?_getD, List.getElem?_set_eq_of_lt _ hr]
  simp [PacketMap.insert, PacketMap.get?]

/-- A sample packet used by the concrete witnesses. -/
def samplePacket : Packet := ⟨5, "transfer", "channel-1", "transfer", "channel-0"⟩

/-- All-zero, all-empty metrics. -/
def sampleMetrics : Metrics :=
  ⟨0, 0, 0, 0, 0, [], [], [], [], 0, 0, 0, 0, 0, [], [], 0, 0, []⟩

/-- A fresh, unlinked handler owning heap cells 0, 1, 2. -/
def sampleHandlerA : MetricsHandler :=
  ⟨sampleMetrics, 0, 1, 2, none, none, none, none⟩

/-- A heap with six empty stores (cells 0-2 for one handler, 3-5 for another). -/
def sampleHeap : MapHeap := ⟨[[], [], [], [], [], []]⟩

/-- A handler owning cells 0-2, already linked to the owner of cells 3-5. -/
def linkedA : MetricsHandler :=
  ⟨sampleMetrics, 0, 1, 2, none, some 3, some 4, some 5⟩

/-- A handler owning cells 3-5, already linked to the owner of cells 0-2. -/
def linkedB : MetricsHandler :=
  ⟨sampleMetrics, 3, 4, 5, none, some 0, some 1, some 2⟩

/-- Concrete messages for the witnesses. -/
def msgAck : Any := ⟨"/ibc.core.channel.v1.MsgAcknowledgement", []⟩

def msgRecv : Any := ⟨"/ibc.core.channel.v1.MsgRecvPacket", []⟩

def msgTimeout : Any := ⟨"/ibc.core.channel.v1.MsgTimeout", []⟩

def msgOther : Any := ⟨"/cosmos.bank.v1beta1.MsgSend", [1, 2]⟩

/-! ### Claims -/

/-- Claim C2: the correlator has exactly two failure behaviours. Before linkage
(counterparty reference unset) every call aborts with the fatal `expect` panic,
deterministically, for every input. After linkage, a call whose packet identity
matches no entry completes normally, observing no sample into the histogram. -/
theorem correlator_two_failure_modes (now : Instant) (heap : MapHeap)
    (packet : Packet) (time_metrics : List Nat) :
    MetricsHandler.observe_last_packet_time now heap packet none time_metrics
        = .error linkExpectMsg
    ∧ (∀ r : MapRef, heap.lookup r (PacketId.ofPacket packet) = none →
        MetricsHandler.observe_last_packet_time now heap packet (some r) time_metrics
          = .ok time_metrics) := by
  constructor
  · rfl
  · intro r hnone
    simp [MetricsHandler.observe_last_packet_time, hnone]

/-- Witness for C2 at concrete inputs. -/
theorem correlator_two_failure_modes_witness :
    MetricsHandler.observe_last_packet_time 7 sampleHeap samplePacket none []
        = .error linkExpectMsg
    ∧ MetricsHandler.observe_last_packet_time 7 sampleHeap samplePacket (some 0) []
        = .ok [] := by
  have h := correlator_two_failure_modes 7 sampleHeap samplePacket []
  exact ⟨h.1, h.2 0 (by rfl)⟩

/-- Claim C5: in handle_messages an acknowledgement message increments the local
acks-sent counter first and recomputes the undelivered-acks gauge from the
post-increment value; a receive-packet message recomputes the undelivered-packets
gauge from the pre-increment packets-sent value and increments afterwards; the
separate handle_timeouts entry point only increments the timeouts-sent counter on
timeout / timeout-on-close tags; any other tag changes nothing. -/
theorem handle_messages_increment_order (self : MetricsHandler) (message : Any) :
    (message.type_url = "/ibc.core.channel.v1.MsgAcknowledgement" →
      (self.handle_messages [message]).metrics.number_of_sent_acknowledgments
          = self.metrics.number_of_sent_acknowledgments + 1
      ∧ (self.handle_messages [message]).metrics.number_of_undelivered_acknowledgements
          = (self.metrics.number_of_sent_acknowledgments + 1)
              - self.metrics.counterparty_number_of_received_acknowledgments)
    ∧ (message.type_url = "/ibc.core.channel.v1.MsgRecvPacket" →
      (self.handle_messages [message]).metrics.number_of_undelivered_packets
          = self.metrics.number_of_sent_packets
              - self.metrics.counterparty_number_of_received_packets
      ∧ (self.handle_messages [message]).metrics.number_of_sent_packets
          = self.metrics.number_of_sent_packets + 1)
    ∧ ((message.type_url = "/ibc.core.channel.v1.MsgTimeout" ∨
        message.type_url = "/ibc.core.channel.v1.MsgTimeoutOnClose") →
      self.handle_timeouts [message]
          = { self with metrics := { self.metrics with
              number_of_sent_timeout_packets :=
                self.metrics.number_of_sent_timeout_packets + 1 } })
    ∧ (message.type_url ≠ "/ibc.core.channel.v1.MsgAcknowledgement" →
        message.type_url ≠ "/ibc.core.channel.v1.MsgRecvPacket" →
        self.handle_messages [message] = self)
    ∧ (message.type_url ≠ "/ibc.core.channel.v1.MsgTimeout" →
        message.type_url ≠ "/ibc.core.channel.v1.MsgTimeoutOnClose" →
        self.handle_timeouts [message] = self) := by
  refine ⟨fun h => ?_, fun h => ?_, fun h => ?_, fun h1 h2 => ?_, fun h1 h2 => ?_⟩
  · constructor <;>
      simp [MetricsHandler.handle_messages, Metrics.handle_message, h]
  · constructor <;>
      simp [MetricsHandler.handle_messages, Metrics.handle_message, h]
  · rcases h with h | h <;>
      simp [MetricsHandler.handle_timeouts, Metrics.handle_timeout_message, h]
  · simp [MetricsHandler.handle_messages, Metrics.handle_message, h1, h2]
  · simp [MetricsHandler.handle_timeouts, Metrics.handle_timeout_message, h1, h2]

/-- Witness for C5 at concrete messages. -/
theorem handle_messages_increment_order_witness :
    ((sampleHandlerA.handle_messages [msgAck]).metrics.number_of_sent_acknowledgments
        = sampleHandlerA.metrics.number_of_sent_acknowledgments + 1)
    ∧ ((sampleHandlerA.handle_messages [msgRecv]).metrics.number_of_sent_packets
        = sampleHandlerA.metrics.number_of_sent_packets + 1)
    ∧ (sampleHandlerA.handle_timeouts [msgTimeout]
        = { sampleHandlerA with metrics := { sampleHandlerA.metrics with
            number_of_sent_timeout_packets :=
              sampleHandlerA.metrics.number_of_sent_timeout_packets + 1 } })
    ∧ sampleHandlerA.handle_messages [msgOther] = sampleHandlerA
    ∧ sampleHandlerA.handle_timeouts [msgOther] = sampleHandlerA := by
  refine ⟨?_, ?_, ?_, ?_, ?_⟩
  · exact ((handle_messages_increment_order sampleHandlerA msgAck).1 (by rfl)).1
  · exact ((handle_messages_increment_order sampleHandlerA msgRecv).2.1 (by rfl)).2
  · exact (handle_messages_increment_order sampleHandlerA msgTimeout).2.2.1 (Or.inl (by rfl))
  · exact (handle_messages_increment_order sampleHandlerA msgOther).2.2.2.1
      (by decide) (by decide)
  · exact (handle_messages_increment_order sampleHandlerA msgOther).2.2.2.2
      (by decide) (by decide)

/-- Claim C6: for every pair of values of the sent counter and the
counterparty-received counter, the undelivered gauges computed by handle_messages
are the zero-clamped difference, hence never negative. -/
theorem undelivered_gauges_clamped (self : MetricsHandler) (message : Any) :
    (message.type_url = "/ibc.core.channel.v1.MsgAcknowledgement" →
      ((self.handle_messages [message]).metrics.number_of_undelivered_acknowledgements : Int)
          = max 0 ((self.metrics.number_of_sent_acknowledgments : Int) + 1
              - (self.metrics.counterparty_number_of_received_acknowledgments : Int))
      ∧ 0 ≤ ((self.handle_messages
          [message]).metrics.number_of_undelivered_acknowledgements : Int))
    ∧ (message.type_url = "/ibc.core.channel.v1.MsgRecvPacket" →
      ((self.handle_messages [message]).metrics.number_of_undelivered_packets : Int)
          = max 0 ((self.metrics.number_of_sent_packets : Int)
              - (self.metrics.counterparty_number_of_received_packets : Int))
      ∧ 0 ≤ ((self.handle_messages [message]).metrics.number_of_undelivered_packets : Int)) := by
  constructor
  · intro h
    simp [MetricsHandler.handle_messages, Metrics.handle_message, h]
    omega
  · intro h
    simp [MetricsHandler.handle_messages, Metrics.handle_message, h]
    omega

/-- Witness for C6 at concrete inputs. -/
theorem undelivered_gauges_clamped_witness :
    ((sampleHandlerA.handle_messages [msgAck]).metrics.number_of_undelivered_acknowledgements : Int)
        = max 0 ((sampleHandlerA.metrics.number_of_sent_acknowledgments : Int) + 1
            - (sampleHandlerA.metrics.counterparty_number_of_received_acknowledgments : Int))
    ∧ ((sampleHandlerA.handle_messages [msgRecv]).metrics.number_of_undelivered_packets : Int)
        = max 0 ((sampleHandlerA.metrics.number_of_sent_packets : Int)
            - (sampleHandlerA.metrics.counterparty_number_of_received_packets : Int)) :=
  ⟨((undelivered_gauges_clamped sampleHandlerA msgAck).1 (by rfl)).1,
   ((undelivered_gauges_clamped sampleHandlerA msgRecv).2 (by rfl)).1⟩

/-- Claim C9: the first client-update event processed by a handler observes no
histogram sample and only initialises the scalar last-update instant; every
subsequent client-update event observes the elapsed delta since the previous
update and advances the stored instant to now. -/
theorem update_client_first_and_subsequent (self : MetricsHandler) (heap : MapHeap)
    (h : Height) (cid : ClientId) (ch : Height) (t : Instant)
    (hgate : self.metrics.latest_processed_height ≤ h.revision_height) :
    (self.last_update_client_time = none →
      (self.handle_events heap [(IbcEvent.UpdateClient h cid ch, t)]).map
          (fun res => (res.1.metrics.sent_update_client_time, res.1.last_update_client_time))
        = .ok (self.metrics.sent_update_client_time, some t))
    ∧ (∀ t0 : Instant, self.last_update_client_time = some t0 →
      (self.handle_events heap [(IbcEvent.UpdateClient h cid ch, t)]).map
          (fun res => (res.1.metrics.sent_update_client_time, res.1.last_update_client_time))
        = .ok (self.metrics.sent_update_client_time ++ [t - t0], some t)) := by
  constructor
  · intro hnone
    simp [MetricsHandler.handle_events, MetricsHandler.handle_events_go,
      MetricsHandler.handle_event_dispatch, observe_delta_time, hnone,
      IbcEvent.isHeightGated, IbcEvent.height, Metrics.update_latest_processed_height,
      Metrics.update_light_client_height, Except.map, Nat.not_lt.mpr hgate]
  · intro t0 hsome
    simp [MetricsHandler.handle_events, MetricsHandler.handle_events_go,
      MetricsHandler.handle_event_dispatch, observe_delta_time, hsome,
      IbcEvent.isHeightGated, IbcEvent.height, Metrics.update_latest_processed_height,
      Metrics.update_light_client_height, Except.map, Nat.not_lt.mpr hgate]

/-- Witness for C9: a first update at 5 samples nothing; a later update at 9
samples the delta 9 - 5 = 4. -/
theorem update_client_first_and_subsequent_witness :
    (sampleHandlerA.handle_events sampleHeap
        [(IbcEvent.UpdateClient ⟨0, 7⟩ "07-tendermint-0" ⟨1, 3⟩, 5)]).map
        (fun res : MetricsHandler × MapHeap =>
          (res.1.metrics.sent_update_client_time, res.1.last_update_client_time))
      = .ok (sampleHandlerA.metrics.sent_update_client_time, some 5)
    ∧ ({ sampleHandlerA with last_update_client_time := some 5 }.handle_events sampleHeap
        [(IbcEvent.UpdateClient ⟨0, 8⟩ "07-tendermint-0" ⟨1, 4⟩, 9)]).map
        (fun res : MetricsHandler × MapHeap =>
          (res.1.metrics.sent_update_client_time, res.1.last_update_client_time))
      = .ok (sampleHandlerA.metrics.sent_update_client_time ++ [9 - 5], some 9) :=
  ⟨(update_client_first_and_subsequent sampleHandlerA sampleHeap ⟨0, 7⟩
      "07-tendermint-0" ⟨1, 3⟩ 5 (by decide)).1 (by rfl),
   (update_client_first_and_subsequent
      { sampleHandlerA with last_update_client_time := some 5 } sampleHeap ⟨0, 8⟩
      "07-tendermint-0" ⟨1, 4⟩ 9 (by decide)).2 5 (by rfl)⟩

/-- Claim C10: a matched timestamp-store entry is not removed by a successful
correlation, so two successive confirmation events with the same packet identity
(linked, both passing the height gate) observe two samples, both measured from
the same original recorded instant, and leave the store heap untouched. -/
theorem repeated_confirmation_resamples (self : MetricsHandler) (heap : MapHeap)
    (p : Packet) (r : MapRef) (t0 t1 t2 : Instant) (h1 h2 : Height)
    (hlink : self.counterparty_last_sent_packet_time = some r)
    (hfound : heap.lookup r (PacketId.ofPacket p) = some t0)
    (hg1 : self.metrics.latest_processed_height ≤ h1.revision_height)
    (hg2 : self.metrics.latest_processed_height ≤ h2.revision_height) :
    (self.handle_events heap
        [(IbcEvent.ReceivePacket h1 p, t1), (IbcEvent.ReceivePacket h2 p, t2)]).map
        (fun res => (res.1.metrics.sent_packet_time, res.2))
      = .ok (self.metrics.sent_packet_time ++ [t1 - t0, t2 - t0], heap) := by
  simp [MetricsHandler.handle_events, MetricsHandler.handle_events_go,
    MetricsHandler.handle_event_dispatch, MetricsHandler.observe_last_packet_time,
    hlink, hfound, IbcEvent.isHeightGated, IbcEvent.height,
    Metrics.update_latest_processed_height, Except.map, Nat.not_lt.mpr hg1,
    Nat.not_lt.mpr hg2]

/-- A heap whose cell 0 (A's sent-packet store) already holds the sample packet,
recorded at instant 10. -/
def sampleHeapLoaded : MapHeap :=
  ⟨[[(PacketId.ofPacket samplePacket, 10)], [], [], [], [], []]⟩

/-- Witness for C10: confirmations at 25 and 40 both measure from the original
instant 10, and the store is unchanged. -/
theorem repeated_confirmation_resamples_witness :
    (linkedB.handle_events sampleHeapLoaded
        [(IbcEvent.ReceivePacket ⟨0, 2⟩ samplePacket, 25),
         (IbcEvent.ReceivePacket ⟨0, 3⟩ samplePacket, 40)]).map
        (fun res : MetricsHandler × MapHeap => (res.1.metrics.sent_packet_time, res.2))
      = .ok (linkedB.metrics.sent_packet_time ++ [25 - 10, 40 - 10], sampleHeapLoaded) :=
  repeated_confirmation_resamples linkedB sampleHeapLoaded samplePacket 0 10 25 40
    ⟨0, 2⟩ ⟨0, 3⟩ (by rfl) (by rfl) (by decide) (by decide)

/-- The event loop distributes over list append. -/
theorem handle_events_go_append (suf : List (IbcEvent × Instant)) :
    ∀ (pre : List (IbcEvent × Instant)) (self : MetricsHandler) (heap : MapHeap) (L n : Nat),
    MetricsHandler.handle_events_go self heap L n (pre ++ suf)
      = match MetricsHandler.handle_events_go self heap L n pre with
        | .error e => .error e
        | .ok (s2, h2, n2) => MetricsHandler.handle_events_go s2 h2 L n2 suf := by
  intro pre
  induction pre with
  | nil =>
    intro self heap L n
    simp [MetricsHandler.handle_events_go]
  | cons head tail ih =>
    intro self heap L n
    obtain ⟨event, now⟩ := head
    simp only [List.cons_append, MetricsHandler.handle_events_go]
    by_cases hg : event.isHeightGated = true
    · rw [if_pos hg, if_pos hg]
      by_cases hskip : L > event.height.revision_height
      · rw [if_pos hskip, if_pos hskip]
        exact ih self heap L n
      · rw [if_neg hskip, if_neg hskip]
        cases hd : self.handle_event_dispatch heap now event with
        | error e => simp
        | ok pr =>
          obtain ⟨s2, h2⟩ := pr
          simp only []
          exact ih s2 h2 L _
    · rw [if_neg hg, if_neg hg]
      cases hd : self.handle_event_dispatch heap now event with
      | error e => simp
      | ok pr =>
        obtain ⟨s2, h2⟩ := pr
        simp only []
        exact ih s2 h2 L n

/-- An event whose height lies strictly below the captured watermark `L` is
skipped by the loop without any state change. -/
theorem handle_events_go_skip (self : MetricsHandler) (heap : MapHeap) (L n : Nat)
    (event : IbcEvent) (now : Instant) (rest : List (IbcEvent × Instant))
    (hg : event.isHeightGated = true) (hlt : event.height.revision_height < L) :
    MetricsHandler.handle_events_go self heap L n ((event, now) :: rest)
      = MetricsHandler.handle_events_go self heap L n rest := by
  simp only [MetricsHandler.handle_events_go]
  rw [if_pos hg, if_pos hlt]

/-- Claim C3: within a batch, an event carrying a height strictly below the
pre-batch watermark produces no observable side effect at all: the batch computes
exactly what it would compute were the event absent (no counter increment, no
store write, no correlator call, no watermark contribution). -/
theorem height_gate_no_side_effect (self : MetricsHandler) (heap : MapHeap)
    (pre post : List (IbcEvent × Instant)) (event : IbcEvent) (now : Instant)
    (hg : event.isHeightGated = true)
    (hlt : event.height.revision_height < self.metrics.latest_processed_height) :
    self.handle_events heap (pre ++ (event, now) :: post)
      = self.handle_events heap (pre ++ post) := by
  unfold MetricsHandler.handle_events
  simp only [handle_events_go_append ((event, now) :: post) pre,
    handle_events_go_append post pre]
  cases hpre : MetricsHandler.handle_events_go self heap
      self.metrics.latest_processed_height self.metrics.latest_processed_height pre with
  | error e => rfl
  | ok tr =>
    obtain ⟨s2, h2, n2⟩ := tr
    simp only []
    rw [handle_events_go_skip s2 h2 _ n2 event now post hg hlt]

/-- A handler whose watermark is already at height 5. -/
def sampleHandlerHigh : MetricsHandler :=
  ⟨{ sampleMetrics with latest_processed_height := 5 }, 0, 1, 2, none, none, none, none⟩

/-- Witness for C3: a send event at height 3 under watermark 5 is a no-op. -/
theorem height_gate_no_side_effect_witness :
    sampleHandlerHigh.handle_events sampleHeap
        [(IbcEvent.SendPacket ⟨0, 3⟩ samplePacket, 9)]
      = sampleHandlerHigh.handle_events sampleHeap [] :=
  height_gate_no_side_effect sampleHandlerHigh sampleHeap [] []
    (IbcEvent.SendPacket ⟨0, 3⟩ samplePacket) 9 (by rfl) (by decide)

/-- Event dispatch never touches the watermark gauge. -/
theorem dispatch_preserves_watermark (self : MetricsHandler) (heap : MapHeap)
    (now : Instant) (event : IbcEvent) (self2 : MetricsHandler) (heap2 : MapHeap)
    (h : self.handle_event_dispatch heap now event = .ok (self2, heap2)) :
    self2.metrics.latest_processed_height = self.metrics.latest_processed_height := by
  cases event <;>
    simp only [MetricsHandler.handle_event_dispatch] at h <;>
    try split at h
  all_goals try cases h
  all_goals simp [Metrics.update_light_client_height]

/-- Specification-side definition, following the spec: "Track the maximum height
seen among processed events; after the whole batch is processed, advance the
watermark to that maximum". An event is processed when the height gate applies to
it and its height is not strictly below the pre-batch watermark `w0`. -/
def batchWatermark (w0 : Nat) (events : List IbcEvent) : Nat :=
  events.foldl
    (fun acc e =>
      if e.isHeightGated = true ∧ w0 ≤ e.height.revision_height
      then max acc e.height.revision_height else acc)
    w0

/-- The loop's running maximum equals the spec-side fold, the loop preserves the
watermark gauge, and the running maximum never decreases. -/
theorem handle_events_go_watermark (L : Nat) :
    ∀ (events : List (IbcEvent × Instant)) (self : MetricsHandler) (heap : MapHeap)
      (n : Nat) (self2 : MetricsHandler) (heap2 : MapHeap) (n2 : Nat),
    MetricsHandler.handle_events_go self heap L n events = .ok (self2, heap2, n2) →
    n2 = (events.map Prod.fst).foldl
        (fun acc e =>
          if e.isHeightGated = true ∧ L ≤ e.height.revision_height
          then max acc e.height.revision_height else acc)
        n
    ∧ self2.metrics.latest_processed_height = self.metrics.latest_processed_height
    ∧ n ≤ n2 := by
  intro events
  induction events with
  | nil =>
    intro self heap n self2 heap2 n2 h
    simp only [MetricsHandler.handle_events_go] at h
    cases h
    simp
  | cons head tail ih =>
    intro self heap n self2 heap2 n2 h
    obtain ⟨event, now⟩ := head
    simp only [MetricsHandler.handle_events_go] at h
    by_cases hg : event.isHeightGated = true
    · rw [if_pos hg] at h
      by_cases hskip : L > event.height.revision_height
      · rw [if_pos hskip] at h
        obtain ⟨h1, h2, h3⟩ := ih self heap n self2 heap2 n2 h
        refine ⟨?_, h2, h3⟩
        rw [h1]
        simp only [List.map_cons, List.foldl_cons]
        rw [if_neg (fun hc => absurd hc.2 (by omega))]
      · rw [if_neg hskip] at h
        cases hd : self.handle_event_dispatch heap now event with
        | error e => rw [hd] at h; cases h
        | ok pr =>
          obtain ⟨s2, h2⟩ := pr
          rw [hd] at h
          simp only [] at h
          obtain ⟨h1, hpres, hmono⟩ := ih s2 h2 _ self2 heap2 n2 h
          have hdisp := dispatch_preserves_watermark self heap now event s2 h2 hd
          have heq : (if n < event.height.revision_height
                then event.height.revision_height else n)
              = max n event.height.revision_height := by
            split <;> omega
          rw [heq] at h1 hmono
          refine ⟨?_, by rw [hpres, hdisp], by omega⟩
          rw [h1]
          simp only [List.map_cons, List.foldl_cons]
          rw [if_pos ⟨hg, by omega⟩]
    · rw [if_neg hg] at h
      cases hd : self.handle_event_dispatch heap now event with
      | error e => rw [hd] at h; cases h
      | ok pr =>
        obtain ⟨s2, h2⟩ := pr
        rw [hd] at h
        simp only [] at h
        obtain ⟨h1, hpres, hmono⟩ := ih s2 h2 n self2 heap2 n2 h
        have hdisp := dispatch_preserves_watermark self heap now event s2 h2 hd
        refine ⟨?_, by rw [hpres, hdisp], hmono⟩
        rw [h1]
        simp only [List.map_cons, List.foldl_cons]
        rw [if_neg (fun hc => hg hc.1)]

/-- Claim C4: a successful handle_events call writes the watermark exactly once,
at the end of the batch, to the maximum height among processed events (the
spec-side `batchWatermark` fold over the pre-batch watermark), and the watermark
never decreases; across any sequence of batches it is therefore non-decreasing. -/
theorem watermark_single_advance (self : MetricsHandler) (heap : MapHeap)
    (events : List (IbcEvent × Instant)) (self2 : MetricsHandler) (heap2 : MapHeap)
    (h : self.handle_events heap events = .ok (self2, heap2)) :
    self2.metrics.latest_processed_height
        = batchWatermark self.metrics.latest_processed_height (events.map Prod.fst)
    ∧ self.metrics.latest_processed_height ≤ self2.metrics.latest_processed_height := by
  unfold MetricsHandler.handle_events at h
  simp only [] at h
  cases hgo : MetricsHandler.handle_events_go self heap
      self.metrics.latest_processed_height self.metrics.latest_processed_height events with
  | error e => rw [hgo] at h; cases h
  | ok tr =>
    obtain ⟨s2, h2, n2⟩ := tr
    rw [hgo] at h
    simp only [] at h
    cases h
    obtain ⟨hn2, _, hmono⟩ :=
      handle_events_go_watermark self.metrics.latest_processed_height events self heap
        self.metrics.latest_processed_height s2 heap2 n2 hgo
    refine ⟨?_, ?_⟩
    · simpa [Metrics.update_latest_processed_height, batchWatermark] using hn2
    · simpa [Metrics.update_latest_processed_height] using hmono

/-- The handler state after the witness batch for C4. -/
def watermarkOutHandler : MetricsHandler :=
  ⟨{ sampleMetrics with number_of_received_send_packets := 2, latest_processed_height := 4 },
   0, 1, 2, none, none, none, none⟩

/-- The heap after the witness batch for C4. -/
def watermarkOutHeap : MapHeap :=
  ⟨[[(PacketId.ofPacket samplePacket, 8), (PacketId.ofPacket samplePacket, 3)],
    [], [], [], [], []]⟩

/-- Witness for C4: two send events at heights 4 and 2 advance the watermark from
0 to 4 (the maximum among processed events), once, at the end of the batch. -/
theorem watermark_single_advance_witness :
    watermarkOutHandler.metrics.latest_processed_height
        = batchWatermark sampleHandlerA.metrics.latest_processed_height
            ([(IbcEvent.SendPacket ⟨0, 4⟩ samplePacket, (3 : Instant)),
              (IbcEvent.SendPacket ⟨0, 2⟩ samplePacket, (8 : Instant))].map Prod.fst)
    ∧ sampleHandlerA.metrics.latest_processed_height
        ≤ watermarkOutHandler.metrics.latest_processed_height :=
  watermark_single_advance sampleHandlerA sampleHeap
    [(IbcEvent.SendPacket ⟨0, 4⟩ samplePacket, 3),
     (IbcEvent.SendPacket ⟨0, 2⟩ samplePacket, 8)]
    watermarkOutHandler watermarkOutHeap (by rfl)

/-- Claim C7: link_with_counterparty is symmetric. After the call each side's
counterparty references are bound to the other side's own three timestamp stores
(first six conjuncts), and consequently an entry recorded into either side's
store is visible through the other side's counterparty reference (last six
conjuncts, for any valid heap). -/
theorem link_with_counterparty_symmetric (a b : MetricsHandler) :
    ((a.link_with_counterparty b).2.counterparty_last_sent_packet_time
        = some (a.link_with_counterparty b).1.last_sent_packet_time)
    ∧ ((a.link_with_counterparty b).2.counterparty_last_sent_acknowledgment_time
        = some (a.link_with_counterparty b).1.last_sent_acknowledgment_time)
    ∧ ((a.link_with_counterparty b).2.counterparty_last_sent_timeout_packet_time
        = some (a.link_with_counterparty b).1.last_sent_timeout_packet_time)
    ∧ ((a.link_with_counterparty b).1.counterparty_last_sent_packet_time
        = some (a.link_with_counterparty b).2.last_sent_packet_time)
    ∧ ((a.link_with_counterparty b).1.counterparty_last_sent_acknowledgment_time
        = some (a.link_with_counterparty b).2.last_sent_acknowledgment_time)
    ∧ ((a.link_with_counterparty b).1.counterparty_last_sent_timeout_packet_time
        = some (a.link_with_counterparty b).2.last_sent_timeout_packet_time)
    ∧ (∀ (heap : MapHeap) (key : PacketId) (v : Instant) (r : MapRef),
        (a.link_with_counterparty b).2.counterparty_last_sent_packet_time = some r →
        r < heap.data.length →
        (heap.record (a.link_with_counterparty b).1.last_sent_packet_time key v).lookup
          r key = some v)
    ∧ (∀ (heap : MapHeap) (key : PacketId) (v : Instant) (r : MapRef),
        (a.link_with_counterparty b).2.counterparty_last_sent_acknowledgment_time = some r →
        r < heap.data.length →
        (heap.record (a.link_with_counterparty b).1.last_sent_acknowledgment_time key v).lookup
          r key = some v)
    ∧ (∀ (heap : MapHeap) (key : PacketId) (v : Instant) (r : MapRef),
        (a.link_with_counterparty b).2.counterparty_last_sent_timeout_packet_time = some r →
        r < heap.data.length →
        (heap.record (a.link_with_counterparty b).1.last_sent_timeout_packet_time key v).lookup
          r key = some v)
    ∧ (∀ (heap : MapHeap) (key : PacketId) (v : Instant) (r : MapRef),
        (a.link_with_counterparty b).1.counterparty_last_sent_packet_time = some r →
        r < heap.data.length →
        (heap.record (a.link_with_counterparty b).2.last_sent_packet_time key v).lookup
          r key = some v)
    ∧ (∀ (heap : MapHeap) (key : PacketId) (v : Instant) (r : MapRef),
        (a.link_with_counterparty b).1.counterparty_last_sent_acknowledgment_time = some r →
        r < heap.data.length →
        (heap.record (a.link_with_counterparty b).2.last_sent_acknowledgment_time key v).lookup
          r key = some v)
    ∧ (∀ (heap : MapHeap) (key : PacketId) (v : Instant) (r : MapRef),
        (a.link_with_counterparty b).1.counterparty_last_sent_timeout_packet_time = some r →
        r < heap.data.length →
        (heap.record (a.link_with_counterparty b).2.last_sent_timeout_packet_time key v).lookup
          r key = some v) := by
  refine ⟨rfl, rfl, rfl, rfl, rfl, rfl, ?_, ?_, ?_, ?_, ?_, ?_⟩
  all_goals
    intro heap key v r hr hlen
    simp only [MetricsHandler.link_with_counterparty, Option.some.injEq] at hr ⊢
    subst hr
    exact MapHeap.lookup_record_self heap _ key v hlen

/-- An unlinked handler owning heap cells 3-5, the linkage witness partner. -/
def preB : MetricsHandler := ⟨sampleMetrics, 3, 4, 5, none, none, none, none⟩

/-- Witness for C7: after linking the two sample handlers, B's counterparty
reference is A's sent-packet store, and an entry recorded there at instant 42 is
visible through it. -/
theorem link_with_counterparty_symmetric_witness :
    ((sampleHandlerA.link_with_counterparty preB).2.counterparty_last_sent_packet_time
        = some (sampleHandlerA.link_with_counterparty preB).1.last_sent_packet_time)
    ∧ ((sampleHeap.record
          (sampleHandlerA.link_with_counterparty preB).1.last_sent_packet_time
          (PacketId.ofPacket samplePacket) 42).lookup 0
        (PacketId.ofPacket samplePacket) = some 42) :=
  ⟨(link_with_counterparty_symmetric sampleHandlerA preB).1,
   (link_with_counterparty_symmetric sampleHandlerA preB).2.2.2.2.2.2.1
     sampleHeap (PacketId.ofPacket samplePacket) 42 0 (by rfl) (by decide)⟩

/-- Counterexample to claim C8 as stated: a WriteAcknowledgement event that
passes the height check (the watermark advances to its height 4, proving it was
processed) increments none of the four number-of-received counters. -/
theorem write_ack_no_received_counter :
    (sampleHandlerA.handle_events sampleHeap
        [(IbcEvent.WriteAcknowledgement ⟨0, 4⟩ samplePacket, 9)]).map
      (fun res : MetricsHandler × MapHeap =>
        (res.1.metrics.number_of_received_send_packets,
         res.1.metrics.number_of_received_receive_packets,
         res.1.metrics.number_of_received_acknowledge_packets,
         res.1.metrics.number_of_received_timeouts,
         res.1.metrics.latest_processed_height))
      = .ok (0, 0, 0, 0, 4) := by
  rfl

/-- Claim C8 (amended): of the packet-bearing dispatch arms, the four
counter-bearing categories (packet sent, packet received, acknowledgement
confirmed, and timeout in either variant) increment their number-of-received
counter unconditionally once past the height check, whatever the correlation
lookup yields; the acknowledgement-written category increments no received
counter. -/
theorem received_counters_unconditional (self : MetricsHandler) (heap : MapHeap)
    (h : Height) (p : Packet) (t : Instant) (r : MapRef) :
    (self.metrics.latest_processed_height ≤ h.revision_height →
      (self.handle_events heap [(IbcEvent.SendPacket h p, t)]).map
          (fun res : MetricsHandler × MapHeap =>
            res.1.metrics.number_of_received_send_packets)
        = .ok (self.metrics.number_of_received_send_packets + 1))
    ∧ (self.metrics.latest_processed_height ≤ h.revision_height →
        self.counterparty_last_sent_packet_time = some r →
      (self.handle_events heap [(IbcEvent.ReceivePacket h p, t)]).map
          (fun res : MetricsHandler × MapHeap =>
            res.1.metrics.number_of_received_receive_packets)
        = .ok (self.metrics.number_of_received_receive_packets + 1))
    ∧ (self.metrics.latest_processed_height ≤ h.revision_height →
        self.counterparty_last_sent_acknowledgment_time = some r →
      (self.handle_events heap [(IbcEvent.AcknowledgePacket h p, t)]).map
          (fun res : MetricsHandler × MapHeap =>
            res.1.metrics.number_of_received_acknowledge_packets)
        = .ok (self.metrics.number_of_received_acknowledge_packets + 1))
    ∧ (self.metrics.latest_processed_height ≤ h.revision_height →
        self.counterparty_last_sent_timeout_packet_time = some r →
      (self.handle_events heap [(IbcEvent.TimeoutPacket h p, t)]).map
          (fun res : MetricsHandler × MapHeap =>
            res.1.metrics.number_of_received_timeouts)
        = .ok (self.metrics.number_of_received_timeouts + 1))
    ∧ (self.metrics.latest_processed_height ≤ h.revision_height →
        self.counterparty_last_sent_timeout_packet_time = some r →
      (self.handle_events heap [(IbcEvent.TimeoutOnClosePacket h p, t)]).map
          (fun res : MetricsHandler × MapHeap =>
            res.1.metrics.number_of_received_timeouts)
        = .ok (self.metrics.number_of_received_timeouts + 1))
    ∧ (self.metrics.latest_processed_height ≤ h.revision_height →
      (self.handle_events heap [(IbcEvent.WriteAcknowledgement h p, t)]).map
          (fun res : MetricsHandler × MapHeap =>
            (res.1.metrics.number_of_received_send_packets,
             res.1.metrics.number_of_received_receive_packets,
             res.1.metrics.number_of_received_acknowledge_packets,
             res.1.metrics.number_of_received_timeouts))
        = .ok (self.metrics.number_of_received_send_packets,
            self.metrics.number_of_received_receive_packets,
            self.metrics.number_of_received_acknowledge_packets,
            self.metrics.number_of_received_timeouts)) := by
  refine ⟨fun hgate => ?_, fun hgate hlink => ?_, fun hgate hlink => ?_,
    fun hgate hlink => ?_, fun hgate hlink => ?_, fun hgate => ?_⟩
  · simp [MetricsHandler.handle_events, MetricsHandler.handle_events_go,
      MetricsHandler.handle_event_dispatch, Metrics.update_latest_processed_height,
      Except.map, IbcEvent.isHeightGated, IbcEvent.height, Nat.not_lt.mpr hgate]
  all_goals try (
    cases hlk : MapHeap.lookup heap r (PacketId.ofPacket p) <;>
      simp [MetricsHandler.handle_events, MetricsHandler.handle_events_go,
        MetricsHandler.handle_event_dispatch, MetricsHandler.observe_last_packet_time,
        Metrics.update_latest_processed_height, Except.map, IbcEvent.isHeightGated,
        IbcEvent.height, hlink, hlk, Nat.not_lt.mpr hgate])
  · simp [MetricsHandler.handle_events, MetricsHandler.handle_events_go,
      MetricsHandler.handle_event_dispatch, Metrics.update_latest_processed_height,
      Except.map, IbcEvent.isHeightGated, IbcEvent.height, Nat.not_lt.mpr hgate]

/-- Witness for the amended C8: over empty stores (every correlation lookup
misses) the linked handler still increments each received counter. -/
theorem received_counters_unconditional_witness :
    ((linkedB.handle_events sampleHeap [(IbcEvent.SendPacket ⟨0, 1⟩ samplePacket, 4)]).map
        (fun res : MetricsHandler × MapHeap =>
          res.1.metrics.number_of_received_send_packets) = .ok 1)
    ∧ ((linkedB.handle_events sampleHeap
          [(IbcEvent.ReceivePacket ⟨0, 1⟩ samplePacket, 4)]).map
        (fun res : MetricsHandler × MapHeap =>
          res.1.metrics.number_of_received_receive_packets) = .ok 1)
    ∧ ((linkedB.handle_events sampleHeap
          [(IbcEvent.AcknowledgePacket ⟨0, 1⟩ samplePacket, 4)]).map
        (fun res : MetricsHandler × MapHeap =>
          res.1.metrics.number_of_received_acknowledge_packets) = .ok 1)
    ∧ ((linkedB.handle_events sampleHeap
          [(IbcEvent.TimeoutPacket ⟨0, 1⟩ samplePacket, 4)]).map
        (fun res : MetricsHandler × MapHeap =>
          res.1.metrics.number_of_received_timeouts) = .ok 1)
    ∧ ((linkedB.handle_events sampleHeap
          [(IbcEvent.TimeoutOnClosePacket ⟨0, 1⟩ samplePacket, 4)]).map
        (fun res : MetricsHandler × MapHeap =>
          res.1.metrics.number_of_received_timeouts) = .ok 1) :=
  ⟨(received_counters_unconditional linkedB sampleHeap ⟨0, 1⟩ samplePacket 4 0).1
      (by decide),
   (received_counters_unconditional linkedB sampleHeap ⟨0, 1⟩ samplePacket 4 0).2.1
      (by decide) (by rfl),
   (received_counters_unconditional linkedB sampleHeap ⟨0, 1⟩ samplePacket 4 1).2.2.1
      (by decide) (by rfl),
   (received_counters_unconditional linkedB sampleHeap ⟨0, 1⟩ samplePacket 4 2).2.2.2.1
      (by decide) (by rfl),
   (received_counters_unconditional linkedB sampleHeap ⟨0, 1⟩ samplePacket 4 2).2.2.2.2.1
      (by decide) (by rfl)⟩

/-- Claim C1: for a sent-type event recorded by handler A followed by its
matching confirmation event with identical packet identity processed by handler
B, with linkage established beforehand and neither event skipped by the height
gate, exactly one sample equal to the elapsed milliseconds between the two calls
is observed into the corresponding latency histogram. First conjunct: packet
sent / packet received into sent_packet_time; second conjunct: acknowledgement
written / acknowledgement confirmed into sent_acknowledgment_time (per the
dispatch table these are the two sent/confirmation pairs sharing a store). -/
theorem latency_histogram_one_sample :
    (∀ (a b a2 : MetricsHandler) (heap heap2 : MapHeap) (p p2 : Packet)
      (h1 h2 : Height) (t0 t1 : Instant),
      a.last_sent_packet_time < heap.data.length →
      a.metrics.latest_processed_height ≤ h1.revision_height →
      a.handle_events heap [(IbcEvent.SendPacket h1 p, t0)] = .ok (a2, heap2) →
      b.counterparty_last_sent_packet_time = some a.last_sent_packet_time →
      b.metrics.latest_processed_height ≤ h2.revision_height →
      PacketId.ofPacket p2 = PacketId.ofPacket p →
      (b.handle_events heap2 [(IbcEvent.ReceivePacket h2 p2, t1)]).map
          (fun res : MetricsHandler × MapHeap => res.1.metrics.sent_packet_time)
        = .ok (b.metrics.sent_packet_time ++ [t1 - t0]))
    ∧ (∀ (a b a2 : MetricsHandler) (heap heap2 : MapHeap) (p p2 : Packet)
      (h1 h2 : Height) (t0 t1 : Instant),
      a.last_sent_acknowledgment_time < heap.data.length →
      a.metrics.latest_processed_height ≤ h1.revision_height →
      a.handle_events heap [(IbcEvent.WriteAcknowledgement h1 p, t0)] = .ok (a2, heap2) →
      b.counterparty_last_sent_acknowledgment_time = some a.last_sent_acknowledgment_time →
      b.metrics.latest_processed_height ≤ h2.revision_height →
      PacketId.ofPacket p2 = PacketId.ofPacket p →
      (b.handle_events heap2 [(IbcEvent.AcknowledgePacket h2 p2, t1)]).map
          (fun res : MetricsHandler × MapHeap => res.1.metrics.sent_acknowledgment_time)
        = .ok (b.metrics.sent_acknowledgment_time ++ [t1 - t0])) := by
  constructor
  · intro a b a2 heap heap2 p p2 h1 h2 t0 t1 hrefA hgA hstep hlink hgB hpid
    simp [MetricsHandler.handle_events, MetricsHandler.handle_events_go,
      MetricsHandler.handle_event_dispatch, Metrics.update_latest_processed_height,
      IbcEvent.isHeightGated, IbcEvent.height, Nat.not_lt.mpr hgA] at hstep
    obtain ⟨ha2, hheap2⟩ := hstep
    subst hheap2
    simp [MetricsHandler.handle_events, MetricsHandler.handle_events_go,
      MetricsHandler.handle_event_dispatch, MetricsHandler.observe_last_packet_time,
      Metrics.update_latest_processed_height, Except.map, IbcEvent.isHeightGated,
      IbcEvent.height, hlink, hpid, Nat.not_lt.mpr hgB,
      MapHeap.lookup_record_self heap a.last_sent_packet_time (PacketId.ofPacket p)
        t0 hrefA]
  · intro a b a2 heap heap2 p p2 h1 h2 t0 t1 hrefA hgA hstep hlink hgB hpid
    simp [MetricsHandler.handle_events, MetricsHandler.handle_events_go,
      MetricsHandler.handle_event_dispatch, Metrics.update_latest_processed_height,
      IbcEvent.isHeightGated, IbcEvent.height, Nat.not_lt.mpr hgA] at hstep
    obtain ⟨ha2, hheap2⟩ := hstep
    subst hheap2
    simp [MetricsHandler.handle_events, MetricsHandler.handle_events_go,
      MetricsHandler.handle_event_dispatch, MetricsHandler.observe_last_packet_time,
      Metrics.update_latest_processed_height, Except.map, IbcEvent.isHeightGated,
      IbcEvent.height, hlink, hpid, Nat.not_lt.mpr hgB,
      MapHeap.lookup_record_self heap a.last_sent_acknowledgment_time
        (PacketId.ofPacket p) t0 hrefA]

/-- Handler A after recording the witness send at instant 10. -/
def c1OutA : MetricsHandler :=
  ⟨{ sampleMetrics with number_of_received_send_packets := 1, latest_processed_height := 1 },
   0, 1, 2, none, some 3, some 4, some 5⟩

/-- Handler A after recording the witness written acknowledgement at instant 100. -/
def c1OutAck : MetricsHandler :=
  ⟨{ sampleMetrics with latest_processed_height := 1 },
   0, 1, 2, none, some 3, some 4, some 5⟩

/-- The heap after A records the witness written acknowledgement. -/
def c1AckOutHeap : MapHeap :=
  ⟨[[], [(PacketId.ofPacket samplePacket, 100)], [], [], [], []]⟩

/-- Witness for C1: a send recorded at 10 and confirmed at 25 yields the single
sample 15; an acknowledgement written at 100 and confirmed at 160 yields the
single sample 60. -/
theorem latency_histogram_one_sample_witness :
    ((linkedB.handle_events sampleHeapLoaded
        [(IbcEvent.ReceivePacket ⟨0, 2⟩ samplePacket, 25)]).map
        (fun res : MetricsHandler × MapHeap => res.1.metrics.sent_packet_time)
      = .ok (linkedB.metrics.sent_packet_time ++ [25 - 10]))
    ∧ ((linkedB.handle_events c1AckOutHeap
        [(IbcEvent.AcknowledgePacket ⟨0, 3⟩ samplePacket, 160)]).map
        (fun res : MetricsHandler × MapHeap => res.1.metrics.sent_acknowledgment_time)
      = .ok (linkedB.metrics.sent_acknowledgment_time ++ [160 - 100])) :=
  ⟨latency_histogram_one_sample.1 linkedA linkedB c1OutA sampleHeap sampleHeapLoaded
      samplePacket samplePacket ⟨0, 1⟩ ⟨0, 2⟩ 10 25
      (by decide) (by decide) (by rfl) (by rfl) (by decide) (by rfl),
   latency_histogram_one_sample.2 linkedA linkedB c1OutAck sampleHeap c1AckOutHeap
      samplePacket samplePacket ⟨0, 1⟩ ⟨0, 3⟩ 100 160
      (by decide) (by decide) (by rfl) (by rfl) (by decide) (by rfl)⟩

end Hyperspace
